import Mathlib

/-!
Shallow embedding of the order-handling core of `restaurant_app.py`
(a Streamlit + Firebase restaurant order tracker).

Orders are stored as loosely-typed records keyed by an opaque id.  The
helper functions `add_order`, `mark_order_done`, `mark_order_ready`,
`mark_order_picked_up`, `delete_order` and `get_orders` wrap the Firebase
collaborator; the analytics view computes a completion rate and an hourly
distribution over a filtered order list.

Timestamps are produced by `datetime.now().strftime("%Y-%m-%d %H:%M:%S")`
and re-parsed by the analytics code; we model them as a record of the
calendar components the program actually reads back (date, hour, minute,
second), which is faithful to the strftime/strptime round trip.
-/

namespace RestaurantApp

/-- A timestamp as the program uses it: an opaque calendar date plus the
clock components.  The analytics code extracts `.date` and `.hour` after
re-parsing the stored string. -/
structure DateTime where
  date : Nat
  hour : Nat
  minute : Nat
  second : Nat
deriving Repr, DecidableEq

/-- The order record pushed to Firebase by `add_order` and merged into by
the `mark_order_*` updates.  Optional dictionary fields (absent or `None`
in Python) are `Option`s here; `picked_up_at` is absent at creation and
only ever written by `mark_order_picked_up`. -/
structure OrderRec where
  type : String
  table : Option Nat
  customer_name : Option String
  customer_phone : Option String
  pickup_time : Option String
  items : String
  status : String
  timestamp : DateTime
  completed_at : Option DateTime
  picked_up_at : Option DateTime
deriving Repr, DecidableEq

/-- The `orders` node of the database: records keyed by opaque ids, in
push order. -/
abbrev Store := List (String × OrderRec)

/-- Look a record up by id (Firebase `child(id)` read). -/
def lookupStore (store : Store) (id : String) : Option OrderRec :=
  (store.find? (fun p => p.1 == id)).map (fun p => p.2)

/-- `get_orders`: fetch the full collection; on any store failure the
Python code catches the exception, shows `st.error`, and returns `{}` —
the same value an empty (or `None`) collection produces. -/
def get_orders (readResult : Except String Store) : Store :=
  match readResult with
  | Except.ok orders => orders
  | Except.error _ => []

/-- The `new_order` dictionary built inside `add_order`: type-dependent
fields are `None` for the other order type, `status` starts `"Pending"`,
`timestamp` is the creation time, `completed_at` is `None` and
`picked_up_at` is absent. -/
def new_order (order_type : String) (table_number : Option Nat)
    (customer_name customer_phone : Option String) (items : String)
    (pickup_time : Option String) (now : DateTime) : OrderRec :=
  { type := order_type
    table := if order_type = "Dine-In" then table_number else none
    customer_name := if order_type = "Take-Out" then customer_name else none
    customer_phone := if order_type = "Take-Out" then customer_phone else none
    pickup_time := if order_type = "Take-Out" then pickup_time else none
    items := items
    status := "Pending"
    timestamp := now
    completed_at := none
    picked_up_at := none }

/-- `add_order`: push the new record under a store-generated id.  The
Python function returns `True` on success and `False` (after `st.error`)
when the store write raises; `pushResult` models the collaborator's
answer (the fresh id, or a failure). -/
def add_order (store : Store) (pushResult : Except String String)
    (order_type : String) (table_number : Option Nat)
    (customer_name customer_phone : Option String) (items : String)
    (pickup_time : Option String) (now : DateTime) : Bool × Store :=
  match pushResult with
  | Except.ok newId =>
      (true, store ++ [(newId, new_order order_type table_number
        customer_name customer_phone items pickup_time now)])
  | Except.error _ => (false, store)

/-- The partial update `{"status": "Done", "completed_at": now}` merged
by `mark_order_done`. -/
def done_update (now : DateTime) (r : OrderRec) : OrderRec :=
  { r with status := "Done", completed_at := some now }

/-- The partial update `{"status": "Ready", "completed_at": now}` merged
by `mark_order_ready`. -/
def ready_update (now : DateTime) (r : OrderRec) : OrderRec :=
  { r with status := "Ready", completed_at := some now }

/-- The partial update `{"status": "Picked-Up", "picked_up_at": now}`
merged by `mark_order_picked_up`. -/
def picked_up_update (now : DateTime) (r : OrderRec) : OrderRec :=
  { r with status := "Picked-Up", picked_up_at := some now }

/-- Firebase `child(id).update(partial)`: merge the partial fields into
the record stored under `id`, leaving every other entry untouched. -/
def updateChild (store : Store) (id : String) (f : OrderRec → OrderRec) : Store :=
  store.map (fun p => if p.1 = id then (p.1, f p.2) else p)

/-- `mark_order_done`: unconditionally merge status `"Done"` and a fresh
`completed_at`; returns `True` whenever the store write succeeds (no
status check of any kind is performed). -/
def mark_order_done (store : Store) (id : String) (now : DateTime) : Bool × Store :=
  (true, updateChild store id (done_update now))

/-- `mark_order_ready`: unconditionally merge status `"Ready"` and a
fresh `completed_at`. -/
def mark_order_ready (store : Store) (id : String) (now : DateTime) : Bool × Store :=
  (true, updateChild store id (ready_update now))

/-- `mark_order_picked_up`: unconditionally merge status `"Picked-Up"`
and a fresh `picked_up_at`. -/
def mark_order_picked_up (store : Store) (id : String) (now : DateTime) : Bool × Store :=
  (true, updateChild store id (picked_up_update now))

/-- `delete_order`: `orders_ref.child(order_id).delete()` removes the
record if present and succeeds silently when the id is absent (a Firebase
delete of a missing path is a no-op); the Python function returns `True`
in every non-exception case. -/
def delete_order (store : Store) (id : String) : Bool × Store :=
  (true, store.filter (fun p => !(p.1 == id)))

/-! ### Analytics view -/

/-- `completed_orders` in the Overview metrics:
`len([o for o in filtered_orders if o['status'] in ['Done', 'Picked-Up']])`. -/
def completed_count (orders : List OrderRec) : Nat :=
  (orders.filter (fun o => o.status == "Done" || o.status == "Picked-Up")).length

/-- `completion_rate = (completed_orders / total_orders * 100) if total_orders > 0 else 0`,
computed over exact rationals. -/
def completion_rate (orders : List OrderRec) : ℚ :=
  if orders.length > 0 then
    (completed_count orders : ℚ) / (orders.length : ℚ) * 100
  else 0

/-- One step of `hourly_stats[hour] += 1` on a `defaultdict(int)`: an
existing key keeps its position (Python dicts preserve insertion order on
update), a fresh key is appended. -/
def bump : List (Nat × Nat) → Nat → List (Nat × Nat)
  | [], h => [(h, 1)]
  | (k, c) :: rest, h =>
      if k = h then (k, c + 1) :: rest else (k, c) :: bump rest h

/-- `hourly_stats`: the defaultdict built by the loop
`for order in filtered_orders: hourly_stats[hour] += 1`, as an
association list in key-insertion order. -/
def hourly_stats (orders : List OrderRec) : List (Nat × Nat) :=
  orders.foldl (fun acc o => bump acc o.timestamp.hour) []

/-- `hourly_stats.get(h, 0)`. -/
def hourGet (acc : List (Nat × Nat)) (h : Nat) : Nat :=
  match acc.find? (fun p => p.1 == h) with
  | some p => p.2
  | none => 0

/-- `counts = [hourly_stats.get(h, 0) for h in range(24)]`: the 24
zero-filled hourly buckets fed to the chart. -/
def bucket_counts (orders : List OrderRec) : List Nat :=
  (List.range 24).map (fun h => hourGet (hourly_stats orders) h)

/-- Insert into a count-descending list, after every element whose count
is at least as large — the placement a stable descending sort gives. -/
def insertDesc (x : Nat × Nat) : List (Nat × Nat) → List (Nat × Nat)
  | [] => [x]
  | y :: ys => if y.2 < x.2 then x :: y :: ys else y :: insertDesc x ys

/-- `sorted(items, key=lambda x: x[1], reverse=True)`: Python's sort is
stable, so ties keep their original (insertion) order. -/
def sortDescByCount (l : List (Nat × Nat)) : List (Nat × Nat) :=
  l.foldl (fun acc x => insertDesc x acc) []

/-- `sorted_hours[:5]`: the Peak Hours panel — top 5 busiest hours. -/
def top_hours (orders : List OrderRec) : List (Nat × Nat) :=
  (sortDescByCount (hourly_stats orders)).take 5

/-! ### Helper lemmas -/

theorem lookupStore_updateChild (store : Store) (id : String) (f : OrderRec → OrderRec) :
    lookupStore (updateChild store id f) id = (lookupStore store id).map f := by
  induction store with
  | nil => rfl
  | cons p rest ih =>
      by_cases h : p.1 = id
      · simp [lookupStore, updateChild, List.find?, h]
      · have hb : (p.1 == id) = false := by
          simpa [beq_iff_eq] using h
        simpa [lookupStore, updateChild, List.find?, h, hb] using ih

theorem lookupStore_filter_ne (store : Store) (id : String) :
    lookupStore (store.filter (fun p => !(p.1 == id))) id = none := by
  induction store with
  | nil => rfl
  | cons p rest ih =>
      by_cases h : p.1 = id
      · simpa [List.filter, h] using ih
      · have hb : (p.1 == id) = false := by
          simpa [beq_iff_eq] using h
        rw [List.filter_cons_of_pos (by simp [hb])]
        rw [show lookupStore (p :: List.filter (fun p => !(p.1 == id)) rest) id
              = lookupStore (List.filter (fun p => !(p.1 == id)) rest) id from by
            simp [lookupStore, List.find?, hb]]
        exact ih

theorem hourGet_nil (h : Nat) : hourGet [] h = 0 := rfl

theorem hourGet_cons_self (c : Nat) (rest : List (Nat × Nat)) (h : Nat) :
    hourGet ((h, c) :: rest) h = c := by
  simp [hourGet, List.find?]

theorem hourGet_cons_ne (a c : Nat) (rest : List (Nat × Nat)) (h : Nat)
    (hne : a ≠ h) :
    hourGet ((a, c) :: rest) h = hourGet rest h := by
  have hb : (a == h) = false := by simpa [beq_iff_eq] using hne
  simp [hourGet, List.find?, hb]

theorem hourGet_bump (acc : List (Nat × Nat)) (k h : Nat) :
    hourGet (bump acc k) h = hourGet acc h + (if k = h then 1 else 0) := by
  induction acc with
  | nil =>
      by_cases hk : k = h
      · subst hk
        simp [bump, hourGet_cons_self, hourGet_nil]
      · simp [bump, hourGet_cons_ne _ _ _ _ hk, hourGet_nil, hk]
  | cons p rest ih =>
      obtain ⟨a, c⟩ := p
      by_cases hak : a = k
      · subst hak
        have hbp : bump ((a, c) :: rest) a = (a, c + 1) :: rest := by
          simp [bump]
        rw [hbp]
        by_cases hah : a = h
        · subst hah
          simp [hourGet_cons_self]
        · simp [hourGet_cons_ne _ _ _ _ hah, hah]
      · have hbp : bump ((a, c) :: rest) k = (a, c) :: bump rest k := by
          simp [bump, hak]
        rw [hbp]
        by_cases hah : a = h
        · subst hah
          have hk : ¬ k = a := fun e => hak e.symm
          simp [hourGet_cons_self, hk]
        · rw [hourGet_cons_ne _ _ _ _ hah, hourGet_cons_ne _ _ _ _ hah, ih]

theorem hourGet_foldl_bump (l : List OrderRec) (acc : List (Nat × Nat)) (h : Nat) :
    hourGet (l.foldl (fun a o => bump a o.timestamp.hour) acc) h
      = hourGet acc h + l.countP (fun o => o.timestamp.hour == h) := by
  induction l generalizing acc with
  | nil => simp
  | cons o rest ih =>
      rw [List.foldl_cons, ih (bump acc o.timestamp.hour), hourGet_bump,
        List.countP_cons]
      by_cases ho : o.timestamp.hour = h
      · simp only [ho, beq_self_eq_true, if_true]
        omega
      · have hb : (o.timestamp.hour == h) = false := by
          simpa [beq_iff_eq] using ho
        simp [ho, hb]

theorem hourGet_hourly_stats (orders : List OrderRec) (h : Nat) :
    hourGet (hourly_stats orders) h
      = orders.countP (fun o => o.timestamp.hour == h) := by
  simpa [hourly_stats, hourGet] using hourGet_foldl_bump orders [] h

theorem getD_map_range (f : Nat → Nat) (n h : Nat) (hh : h < n) :
    ((List.range n).map f).getD h 0 = f h := by
  simp [List.getD_eq_getElem?_getD, List.getElem?_range, hh]

/-- Count-descending order, the shape `sorted(..., reverse=True)` leaves
the hour/count pairs in. -/
def sortedDesc (l : List (Nat × Nat)) : Prop :=
  l.Pairwise (fun a b => b.2 ≤ a.2)

theorem mem_insertDesc {b x : Nat × Nat} {l : List (Nat × Nat)}
    (hb : b ∈ insertDesc x l) : b = x ∨ b ∈ l := by
  induction l with
  | nil => simpa [insertDesc] using hb
  | cons y ys ih =>
      by_cases h : y.2 < x.2
      · rcases (by simpa [insertDesc, h] using hb : b = x ∨ b = y ∨ b ∈ ys) with h1 | h1 | h1
        · exact Or.inl h1
        · exact Or.inr (by simp [h1])
        · exact Or.inr (by simp [h1])
      · rcases (by simpa [insertDesc, h] using hb : b = y ∨ b ∈ insertDesc x ys) with h1 | h1
        · exact Or.inr (by simp [h1])
        · rcases ih h1 with h2 | h2
          · exact Or.inl h2
          · exact Or.inr (by simp [h2])

theorem sortedDesc_insertDesc (x : Nat × Nat) (l : List (Nat × Nat))
    (hl : sortedDesc l) : sortedDesc (insertDesc x l) := by
  induction l with
  | nil => simp [insertDesc, sortedDesc]
  | cons y ys ih =>
      rcases List.pairwise_cons.mp hl with ⟨hy, hys⟩
      by_cases h : y.2 < x.2
      · have hd : insertDesc x (y :: ys) = x :: y :: ys := by
          simp [insertDesc, h]
        rw [hd]
        refine List.pairwise_cons.mpr ⟨?_, hl⟩
        intro b hb
        rcases List.mem_cons.mp hb with h1 | h1
        · exact h1 ▸ Nat.le_of_lt h
        · exact Nat.le_trans (hy b h1) (Nat.le_of_lt h)
      · have hd : insertDesc x (y :: ys) = y :: insertDesc x ys := by
          simp [insertDesc, h]
        rw [hd]
        refine List.pairwise_cons.mpr ⟨?_, ih hys⟩
        intro b hb
        rcases mem_insertDesc hb with h1 | h1
        · exact h1 ▸ Nat.le_of_not_lt h
        · exact hy b h1

theorem sortedDesc_foldl_insertDesc (l acc : List (Nat × Nat))
    (hacc : sortedDesc acc) :
    sortedDesc (l.foldl (fun a x => insertDesc x a) acc) := by
  induction l generalizing acc with
  | nil => simpa using hacc
  | cons x xs ih =>
      simpa using ih (insertDesc x acc) (sortedDesc_insertDesc x acc hacc)

theorem sortedDesc_sortDescByCount (l : List (Nat × Nat)) :
    sortedDesc (sortDescByCount l) :=
  sortedDesc_foldl_insertDesc l [] (by simp [sortedDesc])

/-- Glossary: a terminal status is `Done` (dine-in) or `Picked-Up`
(take-out); those are exactly the statuses the Overview metric counts. -/
def terminal_status (s : String) : Prop :=
  s = "Done" ∨ s = "Picked-Up"

instance (s : String) : Decidable (terminal_status s) :=
  inferInstanceAs (Decidable (s = "Done" ∨ s = "Picked-Up"))

theorem terminal_decide (o : OrderRec) :
    decide (terminal_status o.status)
      = (o.status == "Done" || o.status == "Picked-Up") := by
  by_cases h1 : o.status = "Done" <;> by_cases h2 : o.status = "Picked-Up" <;>
    simp [terminal_status, h1, h2]

theorem completed_count_eq (orders : List OrderRec) :
    completed_count orders
      = orders.countP (fun o => decide (terminal_status o.status)) := by
  unfold completed_count
  rw [List.countP_eq_length_filter]
  refine congrArg List.length (List.filter_congr ?_)
  intro o _
  exact (terminal_decide o).symm

/-! ### Sample data for witnesses and counterexamples -/

/-- Day 1, 09:15:00. -/
def tA : DateTime := ⟨1, 9, 15, 0⟩

/-- Day 1, 09:40:00. -/
def tB : DateTime := ⟨1, 9, 40, 0⟩

/-- Day 1, 14:02:00. -/
def tC : DateTime := ⟨1, 14, 2, 0⟩

/-- Day 2, 10:00:00 — a later clock reading used as "now". -/
def tD : DateTime := ⟨2, 10, 0, 0⟩

/-- A pending take-out order, exactly as `add_order` creates it. -/
def pendingTakeOut : OrderRec :=
  new_order ("Take-Out") none (some ("Ann")) (some ("555-1234"))
    ("1 x Shashlik") (some ("ASAP")) tA

/-- A dine-in order that was created at `tA` and marked done at `tB`. -/
def doneDineIn : OrderRec :=
  done_update tB (new_order ("Dine-In") (some 4) none none ("2 x Kebab") none tA)

/-- A take-out order created at 14:02. -/
def orderAt14 : OrderRec :=
  new_order ("Take-Out") none (some ("Bea")) none ("1 x Lula") (some ("ASAP")) tC

/-- A take-out order created at 09:15. -/
def orderAt9 : OrderRec :=
  new_order ("Take-Out") none (some ("Cal")) none ("1 x Wings") (some ("ASAP")) tA

/-- A dine-in order created at 09:40. -/
def orderAt9b : OrderRec :=
  new_order ("Dine-In") (some 7) none none ("1 x Tea") none tB

/-! ### Claim theorems -/

/-- C1 counterexample: advancing a `Pending` take-out order straight to
`Picked-Up` does not fail — `mark_order_picked_up` reports success and
the stored record ends up `Picked-Up`, so no `InvalidTransitionError`
guards the state machine. -/
theorem c1_counterexample :
    pendingTakeOut.type = "Take-Out" ∧ pendingTakeOut.status = "Pending" ∧
    (mark_order_picked_up [(("o1"), pendingTakeOut)] ("o1") tD).1 = true ∧
    lookupStore (mark_order_picked_up [(("o1"), pendingTakeOut)] ("o1") tD).2 ("o1")
      = some (picked_up_update tD pendingTakeOut) ∧
    (picked_up_update tD pendingTakeOut).status = "Picked-Up" := by
  refine ⟨rfl, rfl, rfl, ?_, rfl⟩
  rfl

/-- C1 (amended): the transition helpers perform no state-machine
validation at all — whatever the record's current status and order type,
`mark_order_done`, `mark_order_ready` and `mark_order_picked_up` report
success and unconditionally install the target status; transition
discipline exists only in which buttons the UI renders. -/
theorem c1_no_validation (r : OrderRec) (now : DateTime) (store : Store) (id : String) :
    (mark_order_done store id now).1 = true ∧
    (mark_order_ready store id now).1 = true ∧
    (mark_order_picked_up store id now).1 = true ∧
    (done_update now r).status = "Done" ∧
    (ready_update now r).status = "Ready" ∧
    (picked_up_update now r).status = "Picked-Up" :=
  ⟨rfl, rfl, rfl, rfl, rfl, rfl⟩

/-- C2 counterexample: re-marking an already-`Done` order as done again
returns success but overwrites `completed_at` with the new clock reading,
so the existing timestamp is not preserved. -/
theorem c2_counterexample :
    doneDineIn.status = "Done" ∧ doneDineIn.completed_at = some tB ∧
    (mark_order_done [(("o1"), doneDineIn)] ("o1") tD).1 = true ∧
    lookupStore (mark_order_done [(("o1"), doneDineIn)] ("o1") tD).2 ("o1")
      = some (done_update tD doneDineIn) ∧
    (done_update tD doneDineIn).completed_at = some tD ∧
    (some tD : Option DateTime) ≠ some tB := by
  refine ⟨rfl, rfl, rfl, by rfl, rfl, by decide⟩

/-- C2 (amended): re-invoking `mark_order_done` on an order already in
status `Done` returns success and leaves the status unchanged, but it
re-stamps: `completed_at` is overwritten with the current time rather
than kept. -/
theorem c2_restamps (r : OrderRec) (now : DateTime) (h : r.status = "Done") :
    (done_update now r).status = r.status ∧
    (done_update now r).completed_at = some now ∧
    ∀ store id, (mark_order_done store id now).1 = true := by
  refine ⟨?_, rfl, fun _ _ => rfl⟩
  rw [h]
  rfl

/-- Witness for `c2_restamps` at a concrete already-done order. -/
theorem c2_restamps_witness :
    doneDineIn.status = "Done" ∧
    (done_update tD doneDineIn).status = doneDineIn.status ∧
    (done_update tD doneDineIn).completed_at = some tD :=
  ⟨rfl, (c2_restamps doneDineIn tD rfl).1, (c2_restamps doneDineIn tD rfl).2.1⟩

/-- C3: every submission, dine-in or take-out, creates its record with
status `Pending`, `timestamp` equal to the creation time, and both
`completed_at` and `picked_up_at` null/absent, and a successful push
persists exactly that record under the fresh id. -/
theorem c3_created_pending (order_type : String) (table_number : Option Nat)
    (cname cphone : Option String) (items : String) (pickup : Option String)
    (now : DateTime) (store : Store) (newId : String) :
    (new_order order_type table_number cname cphone items pickup now).status = "Pending" ∧
    (new_order order_type table_number cname cphone items pickup now).timestamp = now ∧
    (new_order order_type table_number cname cphone items pickup now).completed_at = none ∧
    (new_order order_type table_number cname cphone items pickup now).picked_up_at = none ∧
    add_order store (Except.ok newId) order_type table_number cname cphone items pickup now
      = (true, store ++
          [(newId, new_order order_type table_number cname cphone items pickup now)]) :=
  ⟨rfl, rfl, rfl, rfl, rfl⟩

/-- C4: a successful transition stamps exactly the matching timestamp
field with the current time — `Done` and `Ready` stamp `completed_at`,
`Picked-Up` stamps `picked_up_at` — and the merged record is what the
store holds afterwards; all other fields ride along unchanged. -/
theorem c4_stamps (store : Store) (id : String) (r : OrderRec) (now : DateTime)
    (h : lookupStore store id = some r) :
    lookupStore (mark_order_done store id now).2 id
        = some { r with status := "Done", completed_at := some now } ∧
    lookupStore (mark_order_ready store id now).2 id
        = some { r with status := "Ready", completed_at := some now } ∧
    lookupStore (mark_order_picked_up store id now).2 id
        = some { r with status := "Picked-Up", picked_up_at := some now } := by
  refine ⟨?_, ?_, ?_⟩ <;>
    simp [mark_order_done, mark_order_ready, mark_order_picked_up,
      lookupStore_updateChild, h, done_update, ready_update, picked_up_update]

/-- Witness for `c4_stamps` on a one-order store. -/
theorem c4_stamps_witness :
    lookupStore [(("o1"), pendingTakeOut)] ("o1") = some pendingTakeOut ∧
    lookupStore (mark_order_ready [(("o1"), pendingTakeOut)] ("o1") tB).2 ("o1")
      = some { pendingTakeOut with status := "Ready", completed_at := some tB } :=
  ⟨rfl, (c4_stamps [(("o1"), pendingTakeOut)] ("o1") pendingTakeOut tB rfl).2.1⟩

/-- C5: the overview completion rate is the count of orders in a terminal
status (`Done` or `Picked-Up`) divided by the total, as a percentage, and
is 0 on the empty set with no division error (the rate is computed over
exact rationals; `"%.1f"` rendering is display only). -/
theorem c5_completion_rate (orders : List OrderRec) :
    completion_rate [] = 0 ∧
    completion_rate orders * (orders.length : ℚ)
      = (orders.countP (fun o => decide (terminal_status o.status)) : ℚ) * 100 := by
  constructor
  · rfl
  · rw [completion_rate, ← completed_count_eq]
    by_cases h : orders.length > 0
    · rw [if_pos h]
      have hl : (orders.length : ℚ) ≠ 0 := by
        exact_mod_cast Nat.pos_iff_ne_zero.mp h
      field_simp
    · rw [if_neg h]
      have h0 : orders = [] := List.length_eq_zero.mp (by omega)
      subst h0
      simp [completed_count]

/-- C6 counterexample: a failed full-collection read is not
distinguishable from an empty collection — `get_orders` swallows the
store failure and returns the same empty result. -/
theorem c6_counterexample :
    get_orders (Except.error ("timeout")) = get_orders (Except.ok []) := rfl

/-- C6 (amended): the core swallows store failures rather than
propagating a typed error — a failed read collapses to the empty
collection (after an on-screen message), and a failed write makes
`add_order` return `False`, leaving the store untouched; no
`StoreUnavailableError` value exists anywhere in the code. -/
theorem c6_swallows (e : String) (store : Store) (order_type : String)
    (table_number : Option Nat) (cname cphone : Option String)
    (items : String) (pickup : Option String) (now : DateTime) :
    get_orders (Except.error e) = [] ∧
    get_orders (Except.error e) = get_orders (Except.ok []) ∧
    add_order store (Except.error e) order_type table_number cname cphone items pickup now
      = (false, store) :=
  ⟨rfl, rfl, rfl⟩

/-- C7 counterexample: with one order at 14:02 and one at 09:15, hours 14
and 9 tie at one order each, yet the Peak Hours list puts 14 first — the
stable descending sort keeps first-appearance order on ties, so ties are
not broken by earlier hour first. -/
theorem c7_counterexample :
    top_hours [orderAt14, orderAt9] = [(14, 1), (9, 1)] ∧
    top_hours [orderAt14, orderAt9] ≠ [(9, 1), (14, 1)] := by
  constructor
  · rfl
  · decide

/-- C7 (amended): the hourly distribution yields all 24 hour-of-day
buckets, zero-filled, with bucket `h` counting the orders created in hour
`h` (so 09:15, 09:40, 14:02 give bucket 9 = 2, bucket 14 = 1, the rest
0), and the top-5 list is count-descending with ties kept in order of
first appearance of the hour in the filtered set — not earlier-hour
first. -/
theorem c7_hourly (orders : List OrderRec) (h : Nat) (hh : h < 24) :
    (bucket_counts orders).length = 24 ∧
    (bucket_counts orders).getD h 0
      = orders.countP (fun o => o.timestamp.hour == h) ∧
    (top_hours orders).Pairwise (fun a b => b.2 ≤ a.2) ∧
    bucket_counts [orderAt9, orderAt9b, orderAt14]
      = [0, 0, 0, 0, 0, 0, 0, 0, 0, 2, 0, 0, 0, 0, 1, 0, 0, 0, 0, 0, 0, 0, 0, 0] ∧
    top_hours [orderAt14, orderAt9] = [(14, 1), (9, 1)] := by
  refine ⟨by simp [bucket_counts], ?_, ?_, by decide, rfl⟩
  · rw [bucket_counts, getD_map_range _ _ _ hh, hourGet_hourly_stats]
  · exact List.Pairwise.sublist (List.take_sublist 5 _) (sortedDesc_sortDescByCount _)

/-- Witness for `c7_hourly` at hour 9 on the three-order example. -/
theorem c7_hourly_witness :
    9 < 24 ∧
    (bucket_counts [orderAt9, orderAt9b, orderAt14]).getD 9 0
      = List.countP (fun o => o.timestamp.hour == 9) [orderAt9, orderAt9b, orderAt14] :=
  ⟨by decide, (c7_hourly [orderAt9, orderAt9b, orderAt14] 9 (by decide)).2.1⟩

/-- C8 counterexample: deleting an id that is absent from the store is a
silent success — `delete_order` returns `True` and there is no
`NotFoundError` in the code at all. -/
theorem c8_counterexample :
    lookupStore [] ("ghost") = none ∧ delete_order [] ("ghost") = (true, []) :=
  ⟨rfl, rfl⟩

/-- C8 (amended): `delete_order` is unconditional — it reports success
for any id, present or absent (no existence check, no `NotFoundError`),
and afterwards the id is gone from the store; since it never inspects the
record, existing orders are removed from any status. -/
theorem c8_delete_unconditional (store : Store) (id : String) :
    (delete_order store id).1 = true ∧
    lookupStore (delete_order store id).2 id = none :=
  ⟨rfl, lookupStore_filter_ne store id⟩

/-- C9: records written at creation satisfy the per-type field
exclusivity — a dine-in submission populates `table` and leaves every
customer field null, while a take-out submission (name required nonempty
at the call site) populates the customer fields and leaves `table` null. -/
theorem c9_field_exclusivity (tn : Nat) (name phone pk items1 items2 : String)
    (now1 now2 : DateTime) (hname : name ≠ "") :
    ((new_order ("Dine-In") (some tn) none none items1 none now1).table = some tn ∧
     (new_order ("Dine-In") (some tn) none none items1 none now1).customer_name = none ∧
     (new_order ("Dine-In") (some tn) none none items1 none now1).customer_phone = none ∧
     (new_order ("Dine-In") (some tn) none none items1 none now1).pickup_time = none) ∧
    ((new_order ("Take-Out") none (some name) (some phone) items2 (some pk) now2).table
        = none ∧
     (new_order ("Take-Out") none (some name) (some phone) items2 (some pk) now2).customer_name
        = some name ∧
     name ≠ "" ∧
     (new_order ("Take-Out") none (some name) (some phone) items2 (some pk) now2).customer_phone
        = some phone ∧
     (new_order ("Take-Out") none (some name) (some phone) items2 (some pk) now2).pickup_time
        = some pk) :=
  ⟨⟨rfl, rfl, rfl, rfl⟩, ⟨rfl, rfl, hname, rfl, rfl⟩⟩

/-- Witness for `c9_field_exclusivity` at a concrete submission pair. -/
theorem c9_field_exclusivity_witness :
    ("Ann" : String) ≠ "" ∧
    (new_order ("Take-Out") none (some ("Ann")) (some ("555"))
        ("1 x Plov") (some ("ASAP")) tA).customer_name = some ("Ann") ∧
    (new_order ("Dine-In") (some 4) none none ("1 x Tea") none tA).table = some 4 :=
  ⟨by decide,
   (c9_field_exclusivity 4 ("Ann") ("555") ("ASAP") ("1 x Tea") ("1 x Plov")
      tA tA (by decide)).2.2.1,
   (c9_field_exclusivity 4 ("Ann") ("555") ("ASAP") ("1 x Tea") ("1 x Plov")
      tA tA (by decide)).1.1⟩

/-- C10: the picked-up merge touches exactly `status` and `picked_up_at`;
every other field of the stored record — including `completed_at` (still
null if `Ready` was never stamped), `items`, the customer fields and the
creation timestamp — keeps its prior value, and the store update applies
exactly this merge to the addressed record. -/
theorem c10_picked_up_frame (r : OrderRec) (now : DateTime)
    (store : Store) (id : String) :
    (picked_up_update now r).status = "Picked-Up" ∧
    (picked_up_update now r).picked_up_at = some now ∧
    (picked_up_update now r).completed_at = r.completed_at ∧
    (picked_up_update now r).items = r.items ∧
    (picked_up_update now r).customer_name = r.customer_name ∧
    (picked_up_update now r).customer_phone = r.customer_phone ∧
    (picked_up_update now r).pickup_time = r.pickup_time ∧
    (picked_up_update now r).timestamp = r.timestamp ∧
    (picked_up_update now r).table = r.table ∧
    (picked_up_update now r).type = r.type ∧
    (mark_order_picked_up store id now).2 = updateChild store id (picked_up_update now) :=
  ⟨rfl, rfl, rfl, rfl, rfl, rfl, rfl, rfl, rfl, rfl, rfl⟩

end RestaurantApp
